import Mathlib

/-!
Verification development for the native core of the bugsnag-android
crash/ANR reporting agent.

Shallow embedding of:
  * `bugsnag-plugin-android-anr/src/main/jni/bugsnag_anr.c` — the JNI entry
    points `Java_com_bugsnag_android_AnrPlugin_enableAnrReporting` and
    `Java_com_bugsnag_android_AnrPlugin_disableAnrReporting`;
  * `bugsnag-plugin-android-ndk/src/main/assets/include/bugsnag.h` — the
    public C API surface (event accessors, callback registry, breadcrumbs,
    notify).

The bodies of the functions declared in `bugsnag.h` (and of
`bsg_handler_install_anr` / `bsg_handler_uninstall_anr`) live outside the
available sources; where a property depends on them they are modelled from
the specification, as marked in each doc comment.

Machine-level conventions of the embedding:
  * a C pointer that may be NULL is an `Option` (`none` = NULL);
  * a JNI object reference that may be the null reference is an `Option`;
  * a C function that mutates state is a Lean function from the state to the
    new state (possibly paired with its emitted observations);
  * calls into an external collaborator are recorded as an explicit trace.
-/

/-- A native pointer value: `none` is NULL, `some a` a non-null address. -/
abbrev BsgPtr := Option Nat

/-- A Java `ByteBuffer` object as seen through JNI: all the embedding needs
is what `GetDirectBufferAddress` resolves it to.  A non-direct buffer
resolves to NULL (`none`). -/
structure BsgDirectBuffer where
  directAddr : BsgPtr
deriving DecidableEq, Repr

/-- JNI `GetDirectBufferAddress`: yields the buffer's backing address, or
NULL for a buffer without one (a non-direct buffer). -/
def getDirectBufferAddress (b : BsgDirectBuffer) : BsgPtr :=
  b.directAddr

/-- The ANR handler installation state (`HandlerState` of the spec):
whether the handler is installed and the recorded shared-buffer address. -/
structure BsgHandlerState where
  installed : Bool
  buffer : BsgPtr
deriving DecidableEq, Repr

/-- The freshly-loaded, uninstalled handler state. -/
def bsgHandlerUninstalled : BsgHandlerState :=
  { installed := false, buffer := none }

/-- Modelled from the spec: `bsg_handler_install_anr` (its body is in
`anr_handler.c`, not among the available sources).  Per §4.4: the buffer
address is recorded and a monitor is started, transitioning to
`Installed`. -/
def bsg_handler_install_anr (s : BsgHandlerState) (addr : BsgPtr) : BsgHandlerState :=
  { s with installed := true, buffer := addr }

/-- Modelled from the spec: `bsg_handler_uninstall_anr` (its body is in
`anr_handler.c`, not among the available sources).  Per §4.4: stops the
monitor and releases (does not free) the buffer reference, transitioning to
`Uninstalled`. -/
def bsg_handler_uninstall_anr (s : BsgHandlerState) : BsgHandlerState :=
  { s with installed := false, buffer := none }

/-- `Java_com_bugsnag_android_AnrPlugin_enableAnrReporting` from
`bugsnag_anr.c`: if the `anr_buffer` reference is not the null reference
(`IsSameObject(env, anr_buffer, NULL)` is false), call
`bsg_handler_install_anr(GetDirectBufferAddress(env, anr_buffer))`;
otherwise do nothing.  The second component of the result is the trace of
addresses passed to `bsg_handler_install_anr` during the call. -/
def enableAnrReporting (s : BsgHandlerState) (anr_buffer : Option BsgDirectBuffer) :
    BsgHandlerState × List BsgPtr :=
  match anr_buffer with
  | none => (s, [])
  | some b => (bsg_handler_install_anr s (getDirectBufferAddress b),
               [getDirectBufferAddress b])

/-- `Java_com_bugsnag_android_AnrPlugin_disableAnrReporting` from
`bugsnag_anr.c`: unconditionally calls `bsg_handler_uninstall_anr`. -/
def disableAnrReporting (s : BsgHandlerState) : BsgHandlerState :=
  bsg_handler_uninstall_anr s

/-- C1: `enable_anr_reporting` installs the ANR handler iff the supplied
buffer is non-null.  For a null buffer the call is a no-op: the state is
returned unchanged and the install routine is never invoked (empty trace),
so the handler stays uninstalled.  For a non-null buffer the install
routine is invoked exactly once, with the buffer's resolved address, and
that address is recorded in the handler state with `installed = true`. -/
theorem enableAnrReporting_spec (s : BsgHandlerState) (b : BsgDirectBuffer) :
    enableAnrReporting s none = (s, [])
    ∧ (enableAnrReporting s none).1.installed = s.installed
    ∧ (enableAnrReporting s (some b)).2 = [getDirectBufferAddress b]
    ∧ (enableAnrReporting s (some b)).1.installed = true
    ∧ (enableAnrReporting s (some b)).1.buffer = getDirectBufferAddress b := by
  refine ⟨rfl, rfl, rfl, rfl, rfl⟩

/-- C7: `disable_anr_reporting` stops the monitor and drops the buffer
reference, leaving `installed = false` with no buffer recorded; invoked on
the already-uninstalled state it is a no-op (no observable state change). -/
theorem disableAnrReporting_spec (s : BsgHandlerState) :
    (disableAnrReporting s).installed = false
    ∧ (disableAnrReporting s).buffer = none
    ∧ disableAnrReporting bsgHandlerUninstalled = bsgHandlerUninstalled := by
  refine ⟨rfl, rfl, rfl⟩

/-- C10: the no-op guard in the JNI enable entry point tests only whether
the Java buffer reference is null, not whether the resolved direct-buffer
address is: for a non-null buffer object whose `GetDirectBufferAddress`
yields NULL, `bsg_handler_install_anr` is still invoked, once, with a NULL
address. -/
theorem enableAnrReporting_nonDirect (s : BsgHandlerState) (b : BsgDirectBuffer)
    (h : getDirectBufferAddress b = none) :
    (enableAnrReporting s (some b)).2 = [none]
    ∧ (enableAnrReporting s (some b)).1.installed = true := by
  refine ⟨?_, rfl⟩
  simp [enableAnrReporting, h]

/-- Witness for C10 at a concrete non-direct buffer. -/
theorem enableAnrReporting_nonDirect_witness :
    getDirectBufferAddress ⟨none⟩ = none
    ∧ (enableAnrReporting bsgHandlerUninstalled (some ⟨none⟩)).2 = [none]
    ∧ (enableAnrReporting bsgHandlerUninstalled (some ⟨none⟩)).1.installed = true := by
  have h : getDirectBufferAddress ⟨none⟩ = none := rfl
  exact ⟨h, (enableAnrReporting_nonDirect bsgHandlerUninstalled ⟨none⟩ h).1,
         (enableAnrReporting_nonDirect bsgHandlerUninstalled ⟨none⟩ h).2⟩

/-! ## The event data model (`bugsnag.h` declarations, §3 of the spec)

The event structure itself (`event.h`) is not among the available sources;
it is modelled from the spec's data model (§3): string fields are nullable
C strings (`Option String`, `none` = NULL pointer), `version_code` is a C
`int`, the durations are `time_t` values, `in_foreground` a C `bool`. -/

/-- `bsg_severity_t` — severity enum of `bugsnag_notify`. -/
inductive BsgSeverity
  | err
  | warning
  | info
deriving DecidableEq, Repr

/-- `bsg_breadcrumb_t` — breadcrumb type enum of `bugsnag_leave_breadcrumb`. -/
inductive BsgBreadcrumbType
  | user
  | state
  | request
  | err
  | log
  | navigation
  | process
  | manual
deriving DecidableEq, Repr

/-- A breadcrumb (§3): non-empty message, a type, and the insertion-time
timestamp. -/
structure BugsnagBreadcrumb where
  message : String
  ty : BsgBreadcrumbType
  timestamp : Nat
deriving DecidableEq, Repr

/-- Modelled from the spec: the `event.app` nested record (§3 `AppInfo`).
Fields default to C zero-initialisation: NULL strings, zero numbers,
false boolean — the "unset" sentinels of §4.1. -/
structure BsgAppInfo where
  binary_arch : Option String := none
  build_uuid : Option String := none
  id : Option String := none
  release_stage : Option String := none
  ty : Option String := none
  version : Option String := none
  version_code : Int := 0
  duration : Int := 0
  duration_in_foreground : Int := 0
  in_foreground : Bool := false
deriving DecidableEq, Repr

/-- Modelled from the spec: the `event.user` nested record (§3 `UserInfo`). -/
structure BsgUserInfo where
  id : Option String := none
  email : Option String := none
  name : Option String := none
deriving DecidableEq, Repr

/-- Modelled from the spec: the opaque event record behind the `void
*event_ptr` handle of `bugsnag.h` (§3 `EventRecord`). -/
structure BugsnagEvent where
  context : Option String := none
  app : BsgAppInfo := {}
  user : BsgUserInfo := {}
  severity : BsgSeverity := .err
  error_name : Option String := none
  error_message : Option String := none
  breadcrumbs : List BugsnagBreadcrumb := []
deriving DecidableEq, Repr

/-- A freshly created event record: every field unset. -/
def bsgEmptyEvent : BugsnagEvent := {}

/-! Accessors declared in `bugsnag.h` lines 47–82; their bodies are not
among the available sources, so each is modelled from the spec (§4.1):
`get_X` returns the stored value with no side effects, `set_X` overwrites
exactly field X. -/

/-- Modelled from the spec: `bugsnag_event_get_context`. -/
def bugsnag_event_get_context (ev : BugsnagEvent) : Option String := ev.context

/-- Modelled from the spec: `bugsnag_event_set_context`. -/
def bugsnag_event_set_context (ev : BugsnagEvent) (value : Option String) : BugsnagEvent :=
  { ev with context := value }

/-- Modelled from the spec: `bugsnag_app_get_binary_arch`. -/
def bugsnag_app_get_binary_arch (ev : BugsnagEvent) : Option String := ev.app.binary_arch

/-- Modelled from the spec: `bugsnag_app_set_binary_arch`. -/
def bugsnag_app_set_binary_arch (ev : BugsnagEvent) (value : Option String) : BugsnagEvent :=
  { ev with app := { ev.app with binary_arch := value } }

/-- Modelled from the spec: `bugsnag_app_get_build_uuid`. -/
def bugsnag_app_get_build_uuid (ev : BugsnagEvent) : Option String := ev.app.build_uuid

/-- Modelled from the spec: `bugsnag_app_set_build_uuid`. -/
def bugsnag_app_set_build_uuid (ev : BugsnagEvent) (value : Option String) : BugsnagEvent :=
  { ev with app := { ev.app with build_uuid := value } }

/-- Modelled from the spec: `bugsnag_app_get_id`. -/
def bugsnag_app_get_id (ev : BugsnagEvent) : Option String := ev.app.id

/-- Modelled from the spec: `bugsnag_app_set_id`. -/
def bugsnag_app_set_id (ev : BugsnagEvent) (value : Option String) : BugsnagEvent :=
  { ev with app := { ev.app with id := value } }

/-- Modelled from the spec: `bugsnag_app_get_release_stage`. -/
def bugsnag_app_get_release_stage (ev : BugsnagEvent) : Option String := ev.app.release_stage

/-- Modelled from the spec: `bugsnag_app_set_release_stage`. -/
def bugsnag_app_set_release_stage (ev : BugsnagEvent) (value : Option String) : BugsnagEvent :=
  { ev with app := { ev.app with release_stage := value } }

/-- Modelled from the spec: `bugsnag_app_get_type`. -/
def bugsnag_app_get_type (ev : BugsnagEvent) : Option String := ev.app.ty

/-- Modelled from the spec: `bugsnag_app_set_type`. -/
def bugsnag_app_set_type (ev : BugsnagEvent) (value : Option String) : BugsnagEvent :=
  { ev with app := { ev.app with ty := value } }

/-- Modelled from the spec: `bugsnag_app_get_version`. -/
def bugsnag_app_get_version (ev : BugsnagEvent) : Option String := ev.app.version

/-- Modelled from the spec: `bugsnag_app_set_version`. -/
def bugsnag_app_set_version (ev : BugsnagEvent) (value : Option String) : BugsnagEvent :=
  { ev with app := { ev.app with version := value } }

/-- Modelled from the spec: `bugsnag_app_get_version_code` (C `int`). -/
def bugsnag_app_get_version_code (ev : BugsnagEvent) : Int := ev.app.version_code

/-- Modelled from the spec: `bugsnag_app_set_version_code`. -/
def bugsnag_app_set_version_code (ev : BugsnagEvent) (value : Int) : BugsnagEvent :=
  { ev with app := { ev.app with version_code := value } }

/-- Modelled from the spec: `bugsnag_app_get_duration` (C `time_t`). -/
def bugsnag_app_get_duration (ev : BugsnagEvent) : Int := ev.app.duration

/-- Modelled from the spec: `bugsnag_app_set_duration`. -/
def bugsnag_app_set_duration (ev : BugsnagEvent) (value : Int) : BugsnagEvent :=
  { ev with app := { ev.app with duration := value } }

/-- Modelled from the spec: `bugsnag_app_get_duration_in_foreground`. -/
def bugsnag_app_get_duration_in_foreground (ev : BugsnagEvent) : Int :=
  ev.app.duration_in_foreground

/-- Modelled from the spec: `bugsnag_app_set_duration_in_foreground`. -/
def bugsnag_app_set_duration_in_foreground (ev : BugsnagEvent) (value : Int) : BugsnagEvent :=
  { ev with app := { ev.app with duration_in_foreground := value } }

/-- Modelled from the spec: `bugsnag_app_get_in_foreground` (C `bool`). -/
def bugsnag_app_get_in_foreground (ev : BugsnagEvent) : Bool := ev.app.in_foreground

/-- Modelled from the spec: `bugsnag_app_set_in_foreground`. -/
def bugsnag_app_set_in_foreground (ev : BugsnagEvent) (value : Bool) : BugsnagEvent :=
  { ev with app := { ev.app with in_foreground := value } }

/-- Last-write-wins for a getter/setter pair that round-trips: after any
sequence of sets ending in `set _ v`, the getter reads `v`. -/
theorem bsg_last_write_wins {α : Type} (store : BugsnagEvent → α → BugsnagEvent)
    (load : BugsnagEvent → α) (h : ∀ ev v, load (store ev v) = v)
    (ev : BugsnagEvent) (vs : List α) (v : α) :
    load (List.foldl store ev (vs ++ [v])) = v := by
  rw [List.foldl_append]
  exact h _ v

/-- C6: for every field X of the event record and every single-thread
sequence of `set_X` calls, `get_X` returns the most recently written value
(the getter applied after folding any sequence of sets ending in `v` yields
`v`); on a never-set field the getter returns the type's unset sentinel
(NULL string pointer, zero duration, zero `version_code`, false boolean).
Getters are pure functions of the record, so they have no side effects by
construction. -/
theorem bsg_accessor_spec (ev : BugsnagEvent) (ss : List (Option String))
    (s : Option String) (ns : List Int) (n : Int) (bs : List Bool) (b : Bool) :
    bugsnag_event_get_context (List.foldl bugsnag_event_set_context ev (ss ++ [s])) = s
    ∧ bugsnag_event_get_context bsgEmptyEvent = none
    ∧ bugsnag_app_get_binary_arch (List.foldl bugsnag_app_set_binary_arch ev (ss ++ [s])) = s
    ∧ bugsnag_app_get_binary_arch bsgEmptyEvent = none
    ∧ bugsnag_app_get_build_uuid (List.foldl bugsnag_app_set_build_uuid ev (ss ++ [s])) = s
    ∧ bugsnag_app_get_build_uuid bsgEmptyEvent = none
    ∧ bugsnag_app_get_id (List.foldl bugsnag_app_set_id ev (ss ++ [s])) = s
    ∧ bugsnag_app_get_id bsgEmptyEvent = none
    ∧ bugsnag_app_get_release_stage (List.foldl bugsnag_app_set_release_stage ev (ss ++ [s])) = s
    ∧ bugsnag_app_get_release_stage bsgEmptyEvent = none
    ∧ bugsnag_app_get_type (List.foldl bugsnag_app_set_type ev (ss ++ [s])) = s
    ∧ bugsnag_app_get_type bsgEmptyEvent = none
    ∧ bugsnag_app_get_version (List.foldl bugsnag_app_set_version ev (ss ++ [s])) = s
    ∧ bugsnag_app_get_version bsgEmptyEvent = none
    ∧ bugsnag_app_get_version_code (List.foldl bugsnag_app_set_version_code ev (ns ++ [n])) = n
    ∧ bugsnag_app_get_version_code bsgEmptyEvent = 0
    ∧ bugsnag_app_get_duration (List.foldl bugsnag_app_set_duration ev (ns ++ [n])) = n
    ∧ bugsnag_app_get_duration bsgEmptyEvent = 0
    ∧ bugsnag_app_get_duration_in_foreground
        (List.foldl bugsnag_app_set_duration_in_foreground ev (ns ++ [n])) = n
    ∧ bugsnag_app_get_duration_in_foreground bsgEmptyEvent = 0
    ∧ bugsnag_app_get_in_foreground (List.foldl bugsnag_app_set_in_foreground ev (bs ++ [b])) = b
    ∧ bugsnag_app_get_in_foreground bsgEmptyEvent = false := by
  refine ⟨?_, rfl, ?_, rfl, ?_, rfl, ?_, rfl, ?_, rfl, ?_, rfl, ?_, rfl, ?_, rfl,
          ?_, rfl, ?_, rfl, ?_, rfl⟩
  · exact bsg_last_write_wins bugsnag_event_set_context bugsnag_event_get_context
      (fun _ _ => rfl) ev ss s
  · exact bsg_last_write_wins bugsnag_app_set_binary_arch bugsnag_app_get_binary_arch
      (fun _ _ => rfl) ev ss s
  · exact bsg_last_write_wins bugsnag_app_set_build_uuid bugsnag_app_get_build_uuid
      (fun _ _ => rfl) ev ss s
  · exact bsg_last_write_wins bugsnag_app_set_id bugsnag_app_get_id
      (fun _ _ => rfl) ev ss s
  · exact bsg_last_write_wins bugsnag_app_set_release_stage bugsnag_app_get_release_stage
      (fun _ _ => rfl) ev ss s
  · exact bsg_last_write_wins bugsnag_app_set_type bugsnag_app_get_type
      (fun _ _ => rfl) ev ss s
  · exact bsg_last_write_wins bugsnag_app_set_version bugsnag_app_get_version
      (fun _ _ => rfl) ev ss s
  · exact bsg_last_write_wins bugsnag_app_set_version_code bugsnag_app_get_version_code
      (fun _ _ => rfl) ev ns n
  · exact bsg_last_write_wins bugsnag_app_set_duration bugsnag_app_get_duration
      (fun _ _ => rfl) ev ns n
  · exact bsg_last_write_wins bugsnag_app_set_duration_in_foreground
      bugsnag_app_get_duration_in_foreground (fun _ _ => rfl) ev ns n
  · exact bsg_last_write_wins bugsnag_app_set_in_foreground bugsnag_app_get_in_foreground
      (fun _ _ => rfl) ev bs b

/-- C9, counterexample: on a fresh event record the numeric getters return
`0`, the same value they return after the field is explicitly set to zero —
the unset state of a numeric field is not distinguishable from an explicit
zero through the `int`/`time_t`-returning getters. -/
theorem bsg_numeric_unset_indistinguishable :
    bugsnag_app_get_version_code bsgEmptyEvent =
      bugsnag_app_get_version_code (bugsnag_app_set_version_code bsgEmptyEvent 0)
    ∧ bugsnag_app_get_duration bsgEmptyEvent =
      bugsnag_app_get_duration (bugsnag_app_set_duration bsgEmptyEvent 0)
    ∧ bugsnag_app_get_duration_in_foreground bsgEmptyEvent =
      bugsnag_app_get_duration_in_foreground
        (bugsnag_app_set_duration_in_foreground bsgEmptyEvent 0) := by
  refine ⟨rfl, rfl, rfl⟩

/-- C9, amended: on a fresh event record the numeric fields hold zero — the
unset sentinel for numbers is the zero value itself (§4.1: "zero duration"),
so an unset numeric field reads exactly like one explicitly set to zero.
Only pointer-typed string fields have an out-of-band sentinel: they default
to NULL, which no set string value can collide with. -/
theorem bsg_fresh_event_defaults (ev : BugsnagEvent) (s : String) :
    bugsnag_app_get_version_code bsgEmptyEvent = 0
    ∧ bugsnag_app_get_duration bsgEmptyEvent = 0
    ∧ bugsnag_app_get_duration_in_foreground bsgEmptyEvent = 0
    ∧ bugsnag_app_get_version_code (bugsnag_app_set_version_code bsgEmptyEvent 0) = 0
    ∧ bugsnag_app_get_duration (bugsnag_app_set_duration bsgEmptyEvent 0) = 0
    ∧ bugsnag_app_get_version bsgEmptyEvent = none
    ∧ bugsnag_app_get_version (bugsnag_app_set_version ev (some s)) ≠
        bugsnag_app_get_version bsgEmptyEvent := by
  refine ⟨rfl, rfl, rfl, rfl, rfl, rfl, ?_⟩
  simp [bugsnag_app_get_version, bugsnag_app_set_version, bsgEmptyEvent]

/-! ## The on-error callback chain (`bugsnag.h` lines 12, 42–45; spec §4.3)

A registered callback is identified by its C function-pointer value
(`bsg_on_error` is `bool (*)(void *)`); the behaviour of the function a
pointer designates is supplied as an environment mapping each pointer to a
function from the event record to the mutated record and the returned
boolean (`false` = veto). -/

/-- A `bsg_on_error` function-pointer value. -/
abbrev BsgOnError := Nat

/-- `bugsnag_add_on_error` (declared `void bugsnag_add_on_error(bsg_on_error)`
in `bugsnag.h`): appends the callback pointer to the registry.  The second
component is the C return value — `void`, so `Unit`. -/
def bugsnag_add_on_error (cbs : List BsgOnError) (on_error : BsgOnError) :
    List BsgOnError × Unit :=
  (cbs ++ [on_error], ())

/-- Modelled from the spec: `bugsnag_remove_on_error` (declared
`void bugsnag_remove_on_error(bsg_on_error)` in `bugsnag.h`; its body is
not among the available sources).  Per §4.3 it unregisters the callback if
present and is a no-op if absent; the parameter by which the registration
is selected is the callback's function-pointer value itself. -/
def bugsnag_remove_on_error (cbs : List BsgOnError) (on_error : BsgOnError) :
    List BsgOnError :=
  cbs.erase on_error

/-- Modelled from the spec: the report-time callback chain (§4.3).  Runs
the registered callbacks in registration order, threading the mutable
event record; a callback returning `false` halts the chain.  Returns the
trace of invoked callback pointers, the final record, and whether the
chain completed without a veto. -/
def bsg_run_on_error_chain (env : BsgOnError → BugsnagEvent → BugsnagEvent × Bool) :
    List BsgOnError → BugsnagEvent → List BsgOnError × BugsnagEvent × Bool
  | [], ev => ([], ev, true)
  | f :: rest, ev =>
    if (env f ev).2 then
      (f :: (bsg_run_on_error_chain env rest (env f ev).1).1,
       (bsg_run_on_error_chain env rest (env f ev).1).2)
    else
      ([f], (env f ev).1, false)

/-- Modelled from the spec: delivery after the chain (§4.3, §6).  The
delivery collaborator receives the finished record iff no callback vetoed;
`none` means the collaborator was never called for this event. -/
def bsg_deliver_after_callbacks (env : BsgOnError → BugsnagEvent → BugsnagEvent × Bool)
    (cbs : List BsgOnError) (ev : BugsnagEvent) : Option BugsnagEvent :=
  if (bsg_run_on_error_chain env cbs ev).2.2 then
    some (bsg_run_on_error_chain env cbs ev).2.1
  else
    none

/-- The trace of invoked callbacks is a take-prefix of the registry: the
chain never invokes a callback out of registration order or after a halt. -/
theorem bsg_chain_trace_take (env : BsgOnError → BugsnagEvent → BugsnagEvent × Bool) :
    ∀ (cbs : List BsgOnError) (ev : BugsnagEvent),
      (bsg_run_on_error_chain env cbs ev).1 =
        cbs.take (bsg_run_on_error_chain env cbs ev).1.length
  | [], _ => rfl
  | f :: rest, ev => by
    by_cases h : (env f ev).2
    · have ih := bsg_chain_trace_take env rest (env f ev).1
      simp only [bsg_run_on_error_chain, h, if_true, List.length_cons,
        List.take_succ_cons, List.cons.injEq, true_and]
      exact ih
    · simp [bsg_run_on_error_chain, h]

/-- C2: the callback chain invokes registered callbacks in registration
order, each receiving the record as mutated by the previous ones: the chain
on `f :: rest` first invokes `f` on the incoming record and, if `f` returns
`true`, continues with `rest` on the record `f` produced; if `f` returns
`false` the trace ends at `f` (no later callback is invoked — the trace is
always an in-order take-prefix of the registry) and the delivery
collaborator is not called for the event. -/
theorem bsg_callback_chain_spec (env : BsgOnError → BugsnagEvent → BugsnagEvent × Bool)
    (ev : BugsnagEvent) (f : BsgOnError) (rest cbs : List BsgOnError) :
    bsg_run_on_error_chain env [] ev = ([], ev, true)
    ∧ bsg_run_on_error_chain env (f :: rest) ev =
        (if (env f ev).2 then
          (f :: (bsg_run_on_error_chain env rest (env f ev).1).1,
           (bsg_run_on_error_chain env rest (env f ev).1).2)
         else
          ([f], (env f ev).1, false))
    ∧ (bsg_run_on_error_chain env cbs ev).1 =
        cbs.take (bsg_run_on_error_chain env cbs ev).1.length
    ∧ bsg_deliver_after_callbacks env (f :: rest) ev =
        (if (env f ev).2 then bsg_deliver_after_callbacks env rest (env f ev).1
         else none) := by
  refine ⟨rfl, rfl, bsg_chain_trace_take env cbs ev, ?_⟩
  by_cases h : (env f ev).2 <;>
    simp [bsg_deliver_after_callbacks, bsg_run_on_error_chain, h]

/-- C3, counterexample: `bugsnag_add_on_error` is declared to return
`void`, so the value a caller gets back from registering is the same unit
value for every registration — it carries no identity.  The identity by
which `bugsnag_remove_on_error` selects a registration is the callback's
function-pointer value itself, compared by pointer equality: removing `5`
from the registry `[5, 7]` removes the entry equal to `5`, and removing `7`
the entry equal to `7`. -/
theorem bugsnag_add_on_error_no_token :
    (bugsnag_add_on_error [] 5).2 = (bugsnag_add_on_error [] 7).2
    ∧ bugsnag_remove_on_error [5, 7] 5 = [7]
    ∧ bugsnag_remove_on_error [5, 7] 7 = [5] := by
  refine ⟨rfl, by decide, by decide⟩

/-- C3, amended: `add_on_error` registers the callback at the end of the
registry and returns nothing (`void`); the identity used for its later
removal is the callback's function-pointer value itself, passed to
`remove_on_error` and matched by pointer equality, which undoes the
registration. -/
theorem bugsnag_add_remove_on_error_spec (cbs : List BsgOnError) (f : BsgOnError)
    (h : f ∉ cbs) :
    (bugsnag_add_on_error cbs f).1 = cbs ++ [f]
    ∧ bugsnag_remove_on_error (bugsnag_add_on_error cbs f).1 f = cbs := by
  refine ⟨rfl, ?_⟩
  simp [bugsnag_remove_on_error, bugsnag_add_on_error, List.erase_append_right _ h]

/-- Witness for the amended C3 at a concrete registry. -/
theorem bugsnag_add_remove_on_error_witness :
    (3 : BsgOnError) ∉ ([1, 2] : List BsgOnError)
    ∧ (bugsnag_add_on_error [1, 2] 3).1 = [1, 2] ++ [3]
    ∧ bugsnag_remove_on_error (bugsnag_add_on_error [1, 2] 3).1 3 = [1, 2] :=
  ⟨by decide, (bugsnag_add_remove_on_error_spec [1, 2] 3 (by decide)).1,
   (bugsnag_add_remove_on_error_spec [1, 2] 3 (by decide)).2⟩

/-- C8: `remove_on_error` with an identity that is not registered (never
registered, or already removed) is a no-op: the registry is returned
unchanged, so every other callback stays in place in its original
registration order. -/
theorem bugsnag_remove_on_error_absent (cbs : List BsgOnError) (f : BsgOnError)
    (h : f ∉ cbs) :
    bugsnag_remove_on_error cbs f = cbs :=
  List.erase_of_not_mem h

/-- Witness for C8 at a concrete registry. -/
theorem bugsnag_remove_on_error_absent_witness :
    (5 : BsgOnError) ∉ ([1, 2, 3] : List BsgOnError)
    ∧ bugsnag_remove_on_error [1, 2, 3] 5 = [1, 2, 3] :=
  ⟨by decide, bugsnag_remove_on_error_absent [1, 2, 3] 5 (by decide)⟩

/-! ## The breadcrumb log (`bugsnag.h` lines 39–40; spec §4.2)

`bugsnag_leave_breadcrumb`'s body is not among the available sources; the
append-with-FIFO-eviction behaviour is modelled from the spec (§4.2): if
the log is at its configured capacity, the oldest entry is evicted before
the new entry is appended.  The capacity is a configuration option, kept as
a parameter. -/

/-- Modelled from the spec: `bugsnag_leave_breadcrumb` acting on the log of
the process-wide template record — appends the breadcrumb, first evicting
the oldest entry when the log is at capacity. -/
def bugsnag_leave_breadcrumb (cap : Nat) (log : List BugsnagBreadcrumb)
    (bc : BugsnagBreadcrumb) : List BugsnagBreadcrumb :=
  (if cap ≤ log.length then log.drop 1 else log) ++ [bc]

/-- Folding appends over any starting log within capacity keeps exactly the
most recent `cap` entries: the result is the suffix of the full insertion
sequence that fits. -/
theorem bsg_breadcrumb_foldl (cap : Nat) :
    ∀ (bcs log : List BugsnagBreadcrumb), 1 ≤ cap → log.length ≤ cap →
      List.foldl (bugsnag_leave_breadcrumb cap) log bcs =
        (log ++ bcs).drop (log.length + bcs.length - cap)
  | [], log, _, hlog => by
      simp [Nat.sub_eq_zero_of_le hlog]
  | b :: bs, log, hcap, hlog => by
      rw [List.foldl_cons]
      by_cases h : cap ≤ log.length
      · have hlen : log.length = cap := Nat.le_antisymm hlog h
        have hstep : bugsnag_leave_breadcrumb cap log b = log.drop 1 ++ [b] := by
          simp [bugsnag_leave_breadcrumb, h]
        have hlen2 : (log.drop 1 ++ [b]).length ≤ cap := by
          simp only [List.length_append, List.length_drop, List.length_singleton]
          omega
        rw [hstep, bsg_breadcrumb_foldl cap bs (log.drop 1 ++ [b]) hcap hlen2]
        have hamt : (log.drop 1 ++ [b]).length + bs.length - cap = bs.length := by
          simp only [List.length_append, List.length_drop, List.length_singleton]
          omega
        have hamt2 : log.length + (b :: bs).length - cap = bs.length + 1 := by
          simp only [List.length_cons]
          omega
        rw [hamt, hamt2]
        have hsplit : (log ++ b :: bs).drop 1 = log.drop 1 ++ b :: bs :=
          List.drop_append_of_le_length (by omega)
        calc (log.drop 1 ++ [b] ++ bs).drop bs.length
            = (log.drop 1 ++ b :: bs).drop bs.length := by
              rw [List.append_assoc]
              rfl
          _ = ((log ++ b :: bs).drop 1).drop bs.length := by rw [hsplit]
          _ = (log ++ b :: bs).drop (bs.length + 1) := by
              rw [List.drop_drop, Nat.add_comm]
      · have hstep : bugsnag_leave_breadcrumb cap log b = log ++ [b] := by
          simp [bugsnag_leave_breadcrumb, h]
        have hlen2 : (log ++ [b]).length ≤ cap := by
          simp only [List.length_append, List.length_singleton]
          omega
        rw [hstep, bsg_breadcrumb_foldl cap bs (log ++ [b]) hcap hlen2]
        have hamt : (log ++ [b]).length + bs.length - cap =
            log.length + (b :: bs).length - cap := by
          simp only [List.length_append, List.length_cons, List.length_nil]
          omega
        rw [hamt, List.append_assoc]
        rfl

/-- C4: the breadcrumb log never exceeds its configured capacity `cap`:
after any sequence of `leave_breadcrumb` appends starting from the empty
log, exactly the most recent `min N cap` breadcrumbs remain, in insertion
order (the result is the length-`cap` suffix of the insertion sequence);
and an append on a log at capacity first evicts the oldest entry (FIFO)
before appending. -/
theorem bsg_breadcrumb_capacity (cap : Nat) (bcs log : List BugsnagBreadcrumb)
    (bc : BugsnagBreadcrumb) (hcap : 1 ≤ cap) :
    List.foldl (bugsnag_leave_breadcrumb cap) [] bcs = bcs.drop (bcs.length - cap)
    ∧ (List.foldl (bugsnag_leave_breadcrumb cap) [] bcs).length = min bcs.length cap
    ∧ (log.length = cap → bugsnag_leave_breadcrumb cap log bc = log.drop 1 ++ [bc]) := by
  have hfold := bsg_breadcrumb_foldl cap bcs [] hcap (by simp)
  simp only [List.nil_append, List.length_nil, Nat.zero_add] at hfold
  refine ⟨hfold, ?_, ?_⟩
  · rw [hfold, List.length_drop]
    omega
  · intro hlen
    simp [bugsnag_leave_breadcrumb, hlen.ge]

/-- Concrete breadcrumbs used by the capacity witness. -/
def bsgCrumbA : BugsnagBreadcrumb := ⟨"a", .manual, 0⟩

/-- Second concrete breadcrumb for the capacity witness. -/
def bsgCrumbB : BugsnagBreadcrumb := ⟨"b", .navigation, 1⟩

/-- Third concrete breadcrumb for the capacity witness. -/
def bsgCrumbC : BugsnagBreadcrumb := ⟨"c", .log, 2⟩

/-- Witness for C4: three appends at capacity two keep the two most recent
breadcrumbs, and the at-capacity append evicts the oldest. -/
theorem bsg_breadcrumb_capacity_witness :
    (1 : Nat) ≤ 2
    ∧ List.foldl (bugsnag_leave_breadcrumb 2) [] [bsgCrumbA, bsgCrumbB, bsgCrumbC] =
        ([bsgCrumbA, bsgCrumbB, bsgCrumbC].drop ([bsgCrumbA, bsgCrumbB, bsgCrumbC].length - 2))
    ∧ ([bsgCrumbA, bsgCrumbB] : List BugsnagBreadcrumb).length = 2
    ∧ bugsnag_leave_breadcrumb 2 [bsgCrumbA, bsgCrumbB] bsgCrumbC =
        [bsgCrumbA, bsgCrumbB].drop 1 ++ [bsgCrumbC] := by
  have h := bsg_breadcrumb_capacity 2 [bsgCrumbA, bsgCrumbB, bsgCrumbC]
    [bsgCrumbA, bsgCrumbB] bsgCrumbC (by decide)
  exact ⟨by decide, h.1, rfl, h.2.2 rfl⟩

/-! ## Process-wide template state and `bugsnag_notify` (spec §3, §4.1, §6)

`bugsnag_notify`'s and `bugsnag_set_user`'s bodies are not among the
available sources; the template/snapshot lifecycle is modelled from the
spec (§3 Lifecycle): setters mutate a process-wide template record in
place; `notify` clones the template into a snapshot at the moment of the
call.  A run of API calls is embedded as explicit state passing; the
snapshots handed to the reporting pipeline are collected as a trace. -/

/-- The process-wide state: the template event record and the configured
breadcrumb capacity (a configuration option, not a fixed number). -/
structure BsgGlobalState where
  template : BugsnagEvent
  crumb_capacity : Nat
deriving DecidableEq, Repr

/-- Modelled from the spec: `bugsnag_set_user` — overwrites the template's
user record with the given id, email and name. -/
def bugsnag_set_user (ev : BugsnagEvent) (id email name : Option String) : BugsnagEvent :=
  { ev with user := { id := id, email := email, name := name } }

/-- Modelled from the spec: the snapshot `bugsnag_notify` builds — a clone
of the template taken at the moment of the call, with the error name,
message and severity of this occurrence filled in. -/
def bsg_notify_snapshot (tmpl : BugsnagEvent) (name message : String)
    (severity : BsgSeverity) : BugsnagEvent :=
  { tmpl with
    error_name := some name
    error_message := some message
    severity := severity }

/-- One call of the public API surface, as executed against the
process-wide state. -/
inductive BsgApiCall where
  | set_context (v : Option String)
  | app_set_version_code (n : Int)
  | set_user (id email name : Option String)
  | leave_breadcrumb (message : String) (ty : BsgBreadcrumbType) (now : Nat)
  | notify (name message : String) (severity : BsgSeverity)
deriving DecidableEq, Repr

/-- Modelled from the spec: executing one API call against the process-wide
state.  Setters mutate the template in place and emit nothing; `notify`
leaves the template untouched and emits the snapshot it hands to the
reporting pipeline. -/
def bsg_step (st : BsgGlobalState) : BsgApiCall → BsgGlobalState × List BugsnagEvent
  | .set_context v =>
      ({ st with template := bugsnag_event_set_context st.template v }, [])
  | .app_set_version_code n =>
      ({ st with template := bugsnag_app_set_version_code st.template n }, [])
  | .set_user id email name =>
      ({ st with template := bugsnag_set_user st.template id email name }, [])
  | .leave_breadcrumb message ty now =>
      let bc : BugsnagBreadcrumb := { message := message, ty := ty, timestamp := now }
      ({ st with template :=
          { st.template with breadcrumbs :=
              bugsnag_leave_breadcrumb st.crumb_capacity st.template.breadcrumbs bc } },
       [])
  | .notify name message severity =>
      (st, [bsg_notify_snapshot st.template name message severity])

/-- A single-threaded run of API calls: the final state and the
concatenated trace of snapshots handed to the reporting pipeline. -/
def bsg_run (st : BsgGlobalState) : List BsgApiCall → BsgGlobalState × List BugsnagEvent
  | [] => (st, [])
  | c :: cs =>
      ((bsg_run (bsg_step st c).1 cs).1,
       (bsg_step st c).2 ++ (bsg_run (bsg_step st c).1 cs).2)

/-- Runs compose: running `xs ++ ys` is running `xs`, then `ys` from the
reached state, with the snapshot traces concatenated. -/
theorem bsg_run_append (xs : List BsgApiCall) :
    ∀ (st : BsgGlobalState) (ys : List BsgApiCall),
      bsg_run st (xs ++ ys) =
        ((bsg_run (bsg_run st xs).1 ys).1,
         (bsg_run st xs).2 ++ (bsg_run (bsg_run st xs).1 ys).2) := by
  induction xs with
  | nil => intro st ys; simp [bsg_run]
  | cons c cs ih =>
      intro st ys
      simp [bsg_run, ih, List.append_assoc]

/-- C5: snapshot isolation of `notify`.  In any run `pre ++ notify :: post`,
the snapshot emitted for the `notify` call is the clone of the template as
it stands after `pre` — an expression independent of `post`, so no template
mutation performed after the call changes any field of it; mutations in
`post` only append later snapshots.  The clone keeps every `app` field of
the template at the moment of the call (in particular a previously set
`version_code`), keeps its context and user, and carries the severity
passed to `notify`. -/
theorem bsg_notify_snapshot_isolation (st : BsgGlobalState)
    (pre post : List BsgApiCall) (name message : String) (sev : BsgSeverity) :
    (bsg_run st (pre ++ BsgApiCall.notify name message sev :: post)).2 =
      (bsg_run st pre).2
        ++ bsg_notify_snapshot (bsg_run st pre).1.template name message sev
        :: (bsg_run (bsg_step (bsg_run st pre).1 (BsgApiCall.notify name message sev)).1
              post).2
    ∧ (bsg_notify_snapshot (bsg_run st pre).1.template name message sev).app =
        (bsg_run st pre).1.template.app
    ∧ (bsg_notify_snapshot (bsg_run st pre).1.template name message sev).severity = sev
    ∧ (bsg_notify_snapshot (bsg_run st pre).1.template name message sev).context =
        (bsg_run st pre).1.template.context
    ∧ (bsg_notify_snapshot (bsg_run st pre).1.template name message sev).user =
        (bsg_run st pre).1.template.user := by
  refine ⟨?_, rfl, rfl, rfl, rfl⟩
  rw [bsg_run_append]
  simp [bsg_run, bsg_step]

/-- Witness for the amended C9 at a concrete record and string. -/
theorem bsg_fresh_event_defaults_witness :
    bugsnag_app_get_version_code bsgEmptyEvent = 0
    ∧ bugsnag_app_get_version (bugsnag_app_set_version bsgEmptyEvent (some "1.0")) ≠
        bugsnag_app_get_version bsgEmptyEvent :=
  ⟨(bsg_fresh_event_defaults bsgEmptyEvent "1.0").1,
   (bsg_fresh_event_defaults bsgEmptyEvent "1.0").2.2.2.2.2.2⟩
